import Mathlib

/-!
Shallow embedding of `gilliam/service_registry.py` (service discovery and
resolution subsystem of gilliam-py), covering:

* `ServiceRegistryClient._request` — node iteration with per-node circuit
  breakers (the `circuit` collaborator's `context` guard records failures of
  the handled exception types and re-raises them; only `CircuitOpenError`,
  raised on entering an open breaker, is caught by the loop).
* `Resolver` — symbolic hostname resolution (`resolve_url`,
  `resolve_host_port`, `_resolve`, `_select`, `_resolve_port`,
  `_resolve_one`, `_resolve_any`).
* `_FormationCache` — the background refresh loop and its lock discipline,
  embedded as an iteration function and as event traces.

Python exceptions are modelled with `Except PyExc`; machine-level details
(sockets, threads) are abstracted into explicit parameters: the registry
answer is a function from formation name to a result, `random.choice` is an
explicit index parameter, and the circuit breaker's open/closed state is a
predicate on node names.
-/

/-- Exceptions that the embedded code can raise.  `resolveError` embeds
`gilliam.errors.ResolveError` (a `GilliamError`), `requestException` embeds
`requests.exceptions.RequestException` and its subclasses (the transport
library's errors, all registered with the breaker via `handle_error`),
`circuitOpenError` embeds `circuit.CircuitOpenError`, `typeError` embeds
Python's builtin `TypeError`, and `genericException` embeds a bare Python
`Exception(msg)`. -/
inductive PyExc : Type where
  | resolveError (msg : String)
  | requestException
  | circuitOpenError
  | typeError (msg : String)
  | genericException (msg : String)
  deriving Repr, DecidableEq

/-- Announcement data for one instance, as consumed by the resolver: the
JSON object stored in the registry with at least the keys `formation`,
`service`, `instance`, `host` and `ports` (spec §3, §6).  `ports` maps a
container-exposed port, string-keyed on the wire, to the published port
(a JSON integer, so Python's `int()` on a value is the identity).  The
`instance` key is embedded as the field `inst` because `instance` is a
Lean keyword. -/
structure Announcement : Type where
  formation : String
  service : String
  inst : String
  host : String
  ports : List (String × Int)
  deriving Repr, DecidableEq

/-- Dictionary access `d[attr]` for the attribute names the resolver's
`_select` is actually called with (`'service'` and `'instance'`; any other
key would be a Python `KeyError` and is never exercised by the source). -/
def Announcement.attr (d : Announcement) : String → String
  | "formation" => d.formation
  | "service" => d.service
  | "instance" => d.inst
  | "host" => d.host
  | _ => ""

/-- The registry as seen through `ServiceRegistryClient.query_formation`:
the list of `(instance key, announcement)` pairs for a formation name, or
the exception the query raises (`_request` failure or `raise_for_status`).
Quantifying resolver theorems over this function expresses independence
from — or dependence on — the registry round-trip. -/
abbrev Registry : Type := String → Except PyExc (List (String × Announcement))

/-- Python's `'.' in host`: substring membership, for the one-character
pattern the same as character containment. -/
def strContainsDot (s : String) : Bool :=
  s.data.contains '.'

/-- Python's `host.endswith(suffix)`. -/
def strEndsWith (s suffix : String) : Bool :=
  suffix.data.isSuffixOf s.data

/-- Python's `s.lower()` (the names this code lowers are ASCII, where
`Char.toLower` agrees with Python). -/
def strLower (s : String) : String :=
  (s.data.map Char.toLower).asString

/-- Worker for `splitOnDot`: accumulates the current token (reversed) while
walking the character list. -/
def splitTokens : List Char → List Char → List String
  | [], acc => [acc.reverse.asString]
  | c :: cs, acc =>
    if c = '.' then acc.reverse.asString :: splitTokens cs []
    else splitTokens cs (c :: acc)

/-- Python's `s.split('.')`: one token per dot-separated stretch, so the
empty string yields `[""]` and `"a.b"` yields `["a", "b"]`. -/
def splitOnDot (s : String) : List String :=
  splitTokens s.data []

/-- Filter conjunction of `Resolver._select`:
`all((d[attr].lower() == v) for (attr, v) in filters.items())`. -/
def matchesFilters (d : Announcement) (filters : List (String × String)) : Bool :=
  filters.all (fun fv => strLower (d.attr fv.1) == fv.2)

/-- Embeds `Resolver._select(formation, **filters)`:
`[d for (k, d) in self.client.query_formation(formation) if all(...)]`.
An exception from `query_formation` propagates. -/
def Resolver.select (reg : Registry) (formation : String)
    (filters : List (String × String)) : Except PyExc (List Announcement) :=
  match reg formation with
  | .error e => .error e
  | .ok kvs => .ok ((kvs.filter (fun kv => matchesFilters kv.2 filters)).map Prod.snd)

/-- Lookup in the `ports` mapping, embedding `str(port) in announcement['ports']`
together with `announcement['ports'][str(port)]`. -/
def lookupPorts (ports : List (String × Int)) (key : String) : Option Int :=
  (ports.find? (fun p => p.1 == key)).map Prod.snd

/-- Embeds `Resolver._resolve_port(announcement, port)`: raise
`ResolveError('port %d not exposed' % (port,))` when `str(port)` is not a
key of `announcement['ports']`, else return `int(announcement['ports'][str(port)])`
(identity, since the published port is an integer). -/
def Resolver.resolve_port (announcement : Announcement) (port : Int) : Except PyExc Int :=
  match lookupPorts announcement.ports (toString port) with
  | none => .error (.resolveError ("port " ++ toString port ++ " not exposed"))
  | some v => .ok v

/-- Embeds `Resolver._resolve_one(port, instance, service, formation)`:
select with filters `service=service, instance=instance.lower()`; raise
`ResolveError(...: no such instance)` when nothing matches; otherwise
`random.choice(alts)` — embedded as the index `pick % alts.length` — and
resolve the port against the chosen announcement. -/
def Resolver.resolve_one (reg : Registry) (pick : Nat) (port : Int)
    (inst service formation : String) : Except PyExc (String × Int) :=
  match Resolver.select reg formation [("service", service), ("instance", strLower inst)] with
  | .error e => .error e
  | .ok [] => .error (.resolveError
      (inst ++ "." ++ service ++ "." ++ formation ++ ".service:" ++ toString port
        ++ ": no such instance"))
  | .ok (a :: rest) =>
    let alt := (a :: rest).getD (pick % (a :: rest).length) a
    match Resolver.resolve_port alt port with
    | .error e => .error e
    | .ok p => .ok (alt.host, p)

/-- Embeds `Resolver._resolve_any(port, service, formation)`: select with the
single filter `service=service`; raise `ResolveError(...: no instances)` when
nothing matches; otherwise pick one announcement at random and resolve the
port against it. -/
def Resolver.resolve_any (reg : Registry) (pick : Nat) (port : Int)
    (service formation : String) : Except PyExc (String × Int) :=
  match Resolver.select reg formation [("service", service)] with
  | .error e => .error e
  | .ok [] => .error (.resolveError
      (service ++ "." ++ formation ++ ".service:" ++ toString port ++ ": no instances"))
  | .ok (a :: rest) =>
    let alt := (a :: rest).getD (pick % (a :: rest).length) a
    match Resolver.resolve_port alt port with
    | .error e => .error e
    | .ok p => .ok (alt.host, p)

/-- Embeds `Resolver.__init__`'s `self.search_domain = search_domain.split('.')`.
Like Python's `str.split`, `splitOnDot` on the empty string yields `[""]`,
a non-empty list. -/
def Resolver.mk_search_domain (search_domain : String) : List String :=
  splitOnDot search_domain

/-- Embeds `Resolver._resolve(host, port)`: split the host on `'.'`; 1
component resolves through the search domain (raising `ResolveError` when
`self.search_domain` is the empty list), 3 components resolve any instance
of `service` in `formation`, 4 components resolve one specific instance,
and any other length falls through to `return host, port` with both
unchanged.  Under each length guard the list indices taken are in range,
so the `getD` defaults are never used. -/
def Resolver.resolve_sym (sd : List String) (reg : Registry) (pick : Nat)
    (host : String) (port : Int) : Except PyExc (String × Int) :=
  let parts := splitOnDot host
  if parts.length = 1 then
    if sd.isEmpty then .error (.resolveError "no search domain specified")
    else Resolver.resolve_any reg pick port (parts.getD 0 "") (sd.getD 0 "")
  else if parts.length = 3 then
    Resolver.resolve_any reg pick port (parts.getD 0 "") (parts.getD 1 "")
  else if parts.length = 4 then
    Resolver.resolve_one reg pick port (parts.getD 0 "") (parts.getD 1 "") (parts.getD 2 "")
  else
    .ok (host, port)

/-- Embeds `Resolver.resolve_host_port(host, port)`: a hostname containing a
literal `'.'` (Python's substring test `'.' in host`, for a one-character
pattern the same as character containment) and not ending in `".service"`
is returned unchanged; anything else goes through `_resolve`. -/
def Resolver.resolve_host_port (sd : List String) (reg : Registry) (pick : Nat)
    (host : String) (port : Int) : Except PyExc (String × Int) :=
  if strContainsDot host && !(strEndsWith host ".service") then
    .ok (host, port)
  else
    Resolver.resolve_sym sd reg pick host port

/-- Result of Python 2's `urlsplit(url)` as consumed by `resolve_url`:
`u.scheme`, `u.hostname`, `u.port` (`None` when the netloc carries no
explicit port), `u.path`, `u.query`, `u.fragment`. -/
structure SplitResult : Type where
  scheme : String
  hostname : String
  port : Option Int
  path : String
  query : String
  fragment : String
  deriving Repr, DecidableEq

/-- Python's `int(x)` applied to `u.port`: the identity on an integer port,
and a `TypeError` when the port is `None`. -/
def int_of (p : Option Int) : Except PyExc Int :=
  match p with
  | none => .error (.typeError "int() argument must be a string or a number")
  | some v => .ok v

/-- Embeds `urlunsplit((scheme, netloc, path, query, fragment))` for the
shapes `resolve_url` produces (non-empty scheme and netloc). -/
def urlunsplit (scheme netloc path query fragment : String) : String :=
  scheme ++ "://" ++ netloc ++ path
    ++ (if query = "" then "" else "?" ++ query)
    ++ (if fragment = "" then "" else "#" ++ fragment)

/-- Embeds `Resolver.resolve_url(url)` on an already-split URL: evaluate
`int(u.port)` first (so a URL without a port raises `TypeError` before the
pass-through check in `resolve_host_port` is ever reached), then resolve
host and port and rebuild the URL with netloc `'%s:%d' % (host, port)`. -/
def Resolver.resolve_url (sd : List String) (reg : Registry) (pick : Nat)
    (u : SplitResult) : Except PyExc String :=
  match int_of u.port with
  | .error e => .error e
  | .ok port =>
    match Resolver.resolve_host_port sd reg pick u.hostname port with
    | .error e => .error e
    | .ok hp =>
      .ok (urlunsplit u.scheme (hp.1 ++ ":" ++ toString hp.2) u.path u.query u.fragment)

/-- Outcome of one `session.request(method, urljoin(node, uri), **kwargs)`
against one cluster node: a response with a status code, or a raised
transport error (`requests.exceptions.RequestException` or one of its
subclasses — all of the types `__init__` registered with the breaker). -/
inductive NodeResp : Type where
  | resp (status : Nat)
  | netError
  deriving Repr, DecidableEq

/-- Breaker bookkeeping performed by `circuit`'s scoped guard on leaving the
`with self.breaker.context(node)` block: `failure` when the block raised one
of the handled error types, `success` when it returned normally. -/
inductive BreakerEvent : Type where
  | failure (node : String)
  | success (node : String)
  deriving Repr, DecidableEq

/-- Embeds `ServiceRegistryClient._request`'s `for node, session in
self.cluster_nodes` loop.  `isOpen node = true` models the breaker raising
`CircuitOpenError` on entering the guard for that node (state open, cool-down
not elapsed); such a node is skipped by `except CircuitOpenError: continue`
with no breaker event (the guard body never ran).  Otherwise the request runs
inside the guard: a transport error is recorded by the breaker and — the
guard's `__exit__` returns `False`, and the surrounding `try` catches only
`CircuitOpenError` — re-raised out of `_request`; a response with
`status_code >= 500` raises `RequestException()` inside the guard, recorded
and propagated the same way; any other response is returned (paired here with
the node that served it) after the guard records a success.  An exhausted
loop reaches the `for`/`else` clause: `raise Exception("NO MACHIEN TO TALK
TOOO")`.  The accumulator carries the breaker events of the attempts made
so far. -/
def ServiceRegistryClient.request (isOpen : String → Bool) (behavior : String → NodeResp) :
    List String → List BreakerEvent → Except PyExc (String × Nat) × List BreakerEvent
  | [], evs => (.error (.genericException "NO MACHIEN TO TALK TOOO"), evs)
  | node :: rest, evs =>
    if isOpen node then
      ServiceRegistryClient.request isOpen behavior rest evs
    else
      match behavior node with
      | .netError => (.error .requestException, evs ++ [.failure node])
      | .resp status =>
        if 500 ≤ status then (.error .requestException, evs ++ [.failure node])
        else (.ok (node, status), evs ++ [.success node])

/-- Snapshot held by `_FormationCache._cache`: the dictionary built from the
`(instance key, announcement)` pairs of one formation query. -/
abbrev Snapshot : Type := List (String × Announcement)

/-- Embeds `_FormationCache.query()`: `dict(self._cache)`, a copy of the
current snapshot taken under the lock. -/
def FormationCache.query (cache : Snapshot) : Snapshot :=
  cache

/-- Embeds the iteration behaviour of `_FormationCache._loop` over a finite
schedule of refresh outcomes (each entry the result of one
`dict(self.client.query_formation(...))` evaluation in `_update`).  The loop
body calls `self._update()` with no exception handler — unlike
`_Registration._loop`, whose body wraps the request in `try/except
Exception` — so the first failing refresh propagates out of `_loop`,
terminating the thread; the result records the final `_cache` value and the
exception that escaped the loop, if any.  A successful refresh replaces the
snapshot wholesale; a failing one leaves `self._cache` unassigned. -/
def FormationCache.loop_run : List (Except PyExc Snapshot) → Snapshot → Snapshot × Option PyExc
  | [], cache => (cache, none)
  | .ok s :: rest, _ => FormationCache.loop_run rest s
  | .error e :: _, cache => (cache, some e)

/-- Observable events of one method of `_FormationCache`, in program order:
lock acquisition and release for `with self._lock`, the HTTP `GET` performed
by `_request` while the `query_formation` generator is consumed, the
rebinding of `self._cache`, and the snapshot copy taken by `query()`. -/
inductive CacheEvent : Type where
  | acquire
  | netRequest
  | assignCache
  | release
  | copySnapshot
  deriving Repr, DecidableEq

/-- Event trace of `_FormationCache._update`, by the source's evaluation
order: `query_formation` is a generator function (its body contains
`yield`), so calling it inside `_update` performs no work; the `GET` issued
by `response = self._request('GET', ...)` runs when `dict(...)` consumes the
generator — lexically inside the `with self._lock` block.  The trace is
therefore acquire, network request, snapshot rebinding, release. -/
def FormationCache.update_trace : List CacheEvent :=
  [.acquire, .netRequest, .assignCache, .release]

/-- Event trace of `_FormationCache.query`: acquire, copy `dict(self._cache)`,
release. -/
def FormationCache.query_trace : List CacheEvent :=
  [.acquire, .copySnapshot, .release]

/-- Events that occur while the lock is held: those strictly between the
first `acquire` and the next `release` of a trace. -/
def lockHeldEvents (tr : List CacheEvent) : List CacheEvent :=
  ((tr.dropWhile (fun e => e ≠ .acquire)).drop 1).takeWhile (fun e => e ≠ .release)

/-- Result raises some exception (as opposed to returning normally). -/
def raisesExc {α : Type} : Except PyExc α → Bool
  | .error _ => true
  | .ok _ => false

/-- Exception is a `gilliam.errors.ResolveError`. -/
def PyExc.isResolveError : PyExc → Bool
  | .resolveError _ => true
  | _ => false

/-- C1 (counterexample): with two breaker-closed nodes `[A, B]` where `A`
answers 503 and `B` answers 200, `_request` does record a breaker failure
for `A`, but the `RequestException` raised inside the guard propagates to
the caller — the call does not advance to `B` and does not return `B`'s
response, contrary to the claim. -/
theorem c1_counterexample :
    ServiceRegistryClient.request (fun _ => false)
        (fun n => if n = "A" then NodeResp.resp 503 else NodeResp.resp 200) ["A", "B"] []
      = (.error .requestException, [.failure "A"]) ∧
    (ServiceRegistryClient.request (fun _ => false)
        (fun n => if n = "A" then NodeResp.resp 503 else NodeResp.resp 200) ["A", "B"] []).1
      ≠ .ok ("B", 200) :=
  ⟨rfl, fun h => Except.noConfusion h⟩

/-- C1 (amended): when the first node whose breaker is closed answers with a
status ≥ 500, `_request` records a failure on that node's breaker and the
`RequestException` propagates to the caller; the remaining nodes are never
attempted.  Nodes are skipped only when their breaker is already open. -/
theorem c1_request_5xx_propagates (isOpen : String → Bool) (behavior : String → NodeResp)
    (a : String) (rest : List String) (s : Nat)
    (hopen : isOpen a = false) (hb : behavior a = .resp s) (hs : 500 ≤ s) :
    ServiceRegistryClient.request isOpen behavior (a :: rest) []
      = (.error .requestException, [.failure a]) := by
  unfold ServiceRegistryClient.request
  rw [hopen, hb]
  simp [hs]

/-- C1 (witness): the amended statement at the concrete input `[A, B]`
with `A` breaker-closed and answering 503. -/
theorem c1_witness :
    ServiceRegistryClient.request (fun _ => false) (fun _ => NodeResp.resp 503) ["A", "B"] []
      = (.error .requestException, [.failure "A"]) :=
  c1_request_5xx_propagates (fun _ => false) (fun _ => NodeResp.resp 503)
    "A" ["B"] 503 rfl rfl (by decide)

/-- C2 (counterexample): starting from an empty cache, a schedule whose first
refresh fails and whose second would succeed ends with the loop terminated by
the first failure: the cache stays empty and the second refresh never runs,
contrary to the claim that the loop continues on its normal interval. -/
theorem c2_counterexample :
    FormationCache.loop_run
        [.error .requestException,
         .ok [("web.0", Announcement.mk "f" "web" "0" "h0" [("80", 8080)])]] []
      = ([], some PyExc.requestException) ∧
    FormationCache.loop_run
        [.error .requestException,
         .ok [("web.0", Announcement.mk "f" "web" "0" "h0" [("80", 8080)])]] []
      ≠ ([("web.0", Announcement.mk "f" "web" "0" "h0" [("80", 8080)])], none) :=
  ⟨rfl, by decide⟩

/-- C2 (amended): when a refresh iteration of `_FormationCache._loop` fails,
the previously cached snapshot is retained and is still what `query()`
copies, but the failure is not absorbed: the exception escapes `_loop`
(terminating the background thread) and no later iteration of the schedule
runs. -/
theorem c2_refresh_failure_stops_loop (e : PyExc) (rest : List (Except PyExc Snapshot))
    (cache : Snapshot) :
    FormationCache.loop_run (.error e :: rest) cache = (cache, some e) ∧
    FormationCache.query (FormationCache.loop_run (.error e :: rest) cache).1 = cache :=
  ⟨rfl, rfl⟩

/-- C3 (code bug): with the default empty search domain, `__init__` stores
`''.split('.') == ['']`, a non-empty (truthy) list, so the guard `if not
self.search_domain` in `_resolve` — whose comment says a missing search
domain must raise an error — never fires.  Resolving the bare name `web`
instead queries formation `''`: against a registry whose formation `''`
raises a transport error, that error (not a `ResolveError`) surfaces,
showing the query was issued. -/
theorem c3_default_search_domain_queries_registry :
    Resolver.mk_search_domain "" = [""] ∧
    Resolver.resolve_host_port (Resolver.mk_search_domain "")
        (fun f => if f = "" then .error .requestException else .ok []) 0 "web" 80
      = .error .requestException :=
  ⟨rfl, rfl⟩

/-- C4 (counterexample): the 2-component symbolic hostname `foo.service`
reaches `_resolve`, matches no length branch, and is returned unchanged —
the call succeeds with the input pair and raises nothing, contrary to the
claim that such shapes fail with a resolve error. -/
theorem c4_counterexample :
    Resolver.resolve_host_port ["domain"] (fun _ => Except.ok []) 0 "foo.service" 80
      = .ok ("foo.service", 80) ∧
    raisesExc (Resolver.resolve_host_port ["domain"] (fun _ => Except.ok []) 0
        "foo.service" 80) = false :=
  ⟨rfl, rfl⟩

/-- C4 (amended): a hostname that splits on `'.'` into a number of components
other than 1, 3 or 4 is returned unchanged by `resolve_host_port` — the
pass-through pair `(host, port)` — for every search domain, registry and
random pick. -/
theorem c4_other_shapes_pass_through (sd : List String) (reg : Registry) (pick : Nat)
    (host : String) (port : Int)
    (h1 : (splitOnDot host).length ≠ 1)
    (h3 : (splitOnDot host).length ≠ 3)
    (h4 : (splitOnDot host).length ≠ 4) :
    Resolver.resolve_host_port sd reg pick host port = .ok (host, port) := by
  unfold Resolver.resolve_host_port Resolver.resolve_sym
  split
  · rfl
  · simp [h1, h3, h4]

/-- C4 (witness): the amended statement at the 5-component hostname
`a.b.c.d.service` with an always-failing registry. -/
theorem c4_witness :
    Resolver.resolve_host_port ["d"] (fun _ => Except.error PyExc.requestException) 0
      "a.b.c.d.service" 80 = .ok ("a.b.c.d.service", 80) :=
  c4_other_shapes_pass_through ["d"] (fun _ => Except.error PyExc.requestException) 0
    "a.b.c.d.service" 80 (by decide) (by decide) (by decide)

/-- C5 (counterexample): in the event trace of `_FormationCache._update`,
the network request issued while `dict(...)` consumes the lazy
`query_formation` generator falls strictly between the lock acquisition and
its release, so the lock-held region is not only the snapshot swap. -/
theorem c5_counterexample :
    CacheEvent.netRequest ∈ lockHeldEvents FormationCache.update_trace ∧
    lockHeldEvents FormationCache.update_trace ≠ [CacheEvent.assignCache] := by
  decide

/-- C5 (amended): `query()` holds the snapshot lock only for the copy, but
`_update` holds it across the network fetch as well as the snapshot swap,
because the `query_formation` generator is consumed inside the `with
self._lock` block. -/
theorem c5_lock_scope :
    lockHeldEvents FormationCache.update_trace
      = [CacheEvent.netRequest, CacheEvent.assignCache] ∧
    lockHeldEvents FormationCache.query_trace = [CacheEvent.copySnapshot] :=
  ⟨rfl, rfl⟩

/-- C6 (counterexample): when every node's breaker is open, `_request`
raises the bare generic `Exception("NO MACHIEN TO TALK TOOO")`; and when a
node attempt fails at transport level, the transport library's
`RequestException` itself propagates — in neither case a distinguishable
registry-unreachable error. -/
theorem c6_counterexample :
    (ServiceRegistryClient.request (fun _ => true) (fun _ => NodeResp.resp 200)
        ["A", "B"] []).1
      = .error (.genericException "NO MACHIEN TO TALK TOOO") ∧
    (ServiceRegistryClient.request (fun _ => false) (fun _ => NodeResp.netError)
        ["A", "B"] []).1
      = .error .requestException :=
  ⟨rfl, rfl⟩

/-- C6 (amended): when every configured node's breaker is open, `_request`
falls through the loop without attempting any node and raises the generic
`Exception("NO MACHIEN TO TALK TOOO")` (recording no breaker event); a
node whose attempt fails instead propagates the transport exception
directly. -/
theorem c6_all_open_generic_exception (isOpen : String → Bool) (behavior : String → NodeResp)
    (nodes : List String) (evs : List BreakerEvent)
    (h : ∀ n ∈ nodes, isOpen n = true) :
    ServiceRegistryClient.request isOpen behavior nodes evs
      = (.error (.genericException "NO MACHIEN TO TALK TOOO"), evs) := by
  induction nodes with
  | nil => rfl
  | cons a rest ih =>
    have ha : isOpen a = true := h a (List.mem_cons_self a rest)
    unfold ServiceRegistryClient.request
    rw [ha]
    simp only [if_true]
    exact ih (fun n hn => h n (List.mem_cons_of_mem a hn))

/-- C6 (witness): the amended statement with both nodes breaker-open. -/
theorem c6_witness :
    ServiceRegistryClient.request (fun _ => true) (fun _ => NodeResp.resp 200) ["A", "B"] []
      = (.error (.genericException "NO MACHIEN TO TALK TOOO"), []) :=
  c6_all_open_generic_exception (fun _ => true) (fun _ => NodeResp.resp 200) ["A", "B"] []
    (by intro n _; rfl)

/-- Value of `Resolver._select` over a registry whose query for the
formation succeeds: the announcements of the snapshot that satisfy every
filter. -/
theorem Resolver.select_eq (reg : Registry) (formation : String)
    (filters : List (String × String)) (snapshot : List (String × Announcement))
    (hreg : reg formation = .ok snapshot) :
    Resolver.select reg formation filters
      = .ok ((snapshot.filter (fun kv => matchesFilters kv.2 filters)).map Prod.snd) := by
  unfold Resolver.select
  rw [hreg]

/-- C7: 4-component resolution of an instance name that matches no
announcement of the formation snapshot (no entry with that service and that
lowercased instance name) fails with the `no such instance` `ResolveError`,
for every snapshot — in particular one still holding other instances of the
same service — and every random pick; it never falls back to another
instance. -/
theorem c7_missing_instance_resolve_error (reg : Registry)
    (snapshot : List (String × Announcement)) (pick : Nat) (port : Int)
    (inst service formation : String)
    (hreg : reg formation = .ok snapshot)
    (hmiss : snapshot.all (fun kv =>
        !(matchesFilters kv.2 [("service", service), ("instance", strLower inst)])) = true) :
    Resolver.resolve_one reg pick port inst service formation
      = .error (.resolveError (inst ++ "." ++ service ++ "." ++ formation ++ ".service:"
          ++ toString port ++ ": no such instance")) := by
  have hfilter : snapshot.filter (fun kv =>
      matchesFilters kv.2 [("service", service), ("instance", strLower inst)]) = [] := by
    rw [List.filter_eq_nil_iff]
    intro kv hkv
    have hb := List.all_eq_true.mp hmiss kv hkv
    simp only [Bool.not_eq_true'] at hb
    simp [hb]
  unfold Resolver.resolve_one
  rw [Resolver.select_eq reg formation _ snapshot hreg, hfilter]
  rfl

/-- C7 (witness): resolving instance `1` of service `web` in formation `f`
against a snapshot that holds only instance `0` of `web` fails with the
`no such instance` error. -/
theorem c7_witness :
    Resolver.resolve_one
        (fun _ => Except.ok [("web.0", Announcement.mk "f" "web" "0" "h0" [("80", 8080)])])
        0 80 "1" "web" "f"
      = .error (.resolveError ("1" ++ "." ++ "web" ++ "." ++ "f" ++ ".service:"
          ++ toString (80 : Int) ++ ": no such instance")) :=
  c7_missing_instance_resolve_error
    (fun _ => Except.ok [("web.0", Announcement.mk "f" "web" "0" "h0" [("80", 8080)])])
    [("web.0", Announcement.mk "f" "web" "0" "h0" [("80", 8080)])]
    0 80 "1" "web" "f" rfl (by decide)

/-- C8: for every announcement whose `ports` mapping is `{"80": 8080}`,
resolving port 80 yields the published port 8080; and for every announcement
and requested port whose string form is not a key of `ports`, `_resolve_port`
fails with the `port ... not exposed` `ResolveError`. -/
theorem c8_resolve_port_spec :
    (∀ a : Announcement, a.ports = [("80", (8080 : Int))] →
        Resolver.resolve_port a 80 = .ok 8080) ∧
    (∀ (a : Announcement) (port : Int),
        lookupPorts a.ports (toString port) = none →
        Resolver.resolve_port a port
          = .error (.resolveError ("port " ++ toString port ++ " not exposed"))) := by
  constructor
  · intro a h
    unfold Resolver.resolve_port
    rw [h]
    rfl
  · intro a port h
    unfold Resolver.resolve_port
    rw [h]

/-- C8 (witness): both parts at the announcement with
`ports = {"80": 8080}`, requesting port 80 and then port 443. -/
theorem c8_witness :
    Resolver.resolve_port (Announcement.mk "f" "web" "0" "h0" [("80", 8080)]) 80
      = .ok 8080 ∧
    Resolver.resolve_port (Announcement.mk "f" "web" "0" "h0" [("80", 8080)]) 443
      = .error (.resolveError ("port " ++ toString (443 : Int) ++ " not exposed")) :=
  ⟨c8_resolve_port_spec.1 (Announcement.mk "f" "web" "0" "h0" [("80", 8080)]) rfl,
   c8_resolve_port_spec.2 (Announcement.mk "f" "web" "0" "h0" [("80", 8080)]) 443 rfl⟩

/-- C9: a hostname containing at least one literal dot and not ending in
`.service` is returned unchanged with its port by `resolve_host_port`, for
every search domain, every registry function (so no registry query can
influence the result) and every random pick. -/
theorem c9_concrete_host_pass_through (sd : List String) (reg : Registry) (pick : Nat)
    (host : String) (port : Int)
    (hdot : strContainsDot host = true)
    (hsvc : strEndsWith host ".service" = false) :
    Resolver.resolve_host_port sd reg pick host port = .ok (host, port) := by
  unfold Resolver.resolve_host_port
  rw [hdot, hsvc]
  rfl

/-- C9 (witness): `example.com:80` passes through unchanged even against a
registry whose every query raises. -/
theorem c9_witness :
    Resolver.resolve_host_port [""] (fun _ => Except.error PyExc.requestException) 0
      "example.com" 80 = .ok ("example.com", 80) :=
  c9_concrete_host_pass_through [""] (fun _ => Except.error PyExc.requestException) 0
    "example.com" 80 (by decide) (by decide)

/-- C10: `resolve_url` evaluates `int(u.port)` before anything else, so
every split URL without a port component raises a `TypeError` — which is
not a `ResolveError` — for every search domain, registry and pick, even
when the hostname is a concrete pass-through host. -/
theorem c10_resolve_url_requires_port (sd : List String) (reg : Registry) (pick : Nat)
    (u : SplitResult) (h : u.port = none) :
    Resolver.resolve_url sd reg pick u
      = .error (.typeError "int() argument must be a string or a number") ∧
    PyExc.isResolveError (.typeError "int() argument must be a string or a number")
      = false := by
  constructor
  · unfold Resolver.resolve_url
    rw [h]
    rfl
  · rfl

/-- C10 (witness): `http://example.com/path` — a concrete pass-through
hostname, no port — raises the `TypeError`. -/
theorem c10_witness :
    Resolver.resolve_url ["d"] (fun _ => Except.ok []) 0
        (SplitResult.mk "http" "example.com" none "/path" "" "")
      = .error (.typeError "int() argument must be a string or a number") ∧
    PyExc.isResolveError (.typeError "int() argument must be a string or a number")
      = false :=
  c10_resolve_url_requires_port ["d"] (fun _ => Except.ok []) 0
    (SplitResult.mk "http" "example.com" none "/path" "" "") rfl
